import Mathlib

/-!
Verification of the session-cache and data-translation layer of the
`ha-actualbudget` Home Assistant integration
(`custom_components/actualbudget/actualbudget.py` and `services.py`).

The session cache (`ActualBudget.get_session`) holds at most one connection
handle (`self.actual`), a creation timestamp (`self.sessionStartedAt`) and a
`threading.Lock`.  Each acquisition, under the lock:
1. closes and discards the handle when it is older than `SESSION_TIMEOUT`;
2. validates a surviving handle and discards it on a negative or erroring
   answer (without closing it);
3. creates, validates and stores a fresh handle when none remains;
4. returns the stored handle.

We embed one `get_session` call as a pure function of the cache state, the
current time, and the backend's behaviour for this call (the outcome of
`validate()`, of `__exit__` (close) and of `create_session()`).  The function
returns the list of observable backend events in order, the post state and
either the handle handed to the caller or the propagated error.  Time is
measured in seconds; the model samples `datetime.now()` once per call.
-/

/-- `SESSION_TIMEOUT = datetime.timedelta(minutes=30)`, in seconds. -/
def SESSION_TIMEOUT : Nat := 30 * 60

/-- The mutable fields of `ActualBudget` that `get_session` touches:
`self.actual` (the cached handle, identified by a number; `None` when unset)
and `self.sessionStartedAt`. -/
structure CacheState where
  actual : Option Nat
  sessionStartedAt : Nat
  deriving Repr, DecidableEq

/-- `__init__` leaves `self.actual = None` and stamps `sessionStartedAt`. -/
def initState (now : Nat) : CacheState := ⟨none, now⟩

/-- Outcome of `self.actual.validate()` on the existing handle:
`result.data.validated` is true, it is false, or the call raises. -/
inductive ValidateOutcome where
  | validated
  | notValidated
  | raised
  deriving Repr, DecidableEq

/-- Outcome of `self.actual.__exit__(None, None, None)`. -/
inductive CloseOutcome where
  | ok
  | raised
  deriving Repr, DecidableEq

/-- Outcome of `self.create_session()`: a fresh validated handle, or a raised
error (authentication failure, TLS failure, "Session not validated", ...). -/
inductive CreateOutcome where
  | ok (h : Nat)
  | raised (e : String)
  deriving Repr, DecidableEq

/-- The backend double for one `get_session` call. -/
structure Backend where
  validate : ValidateOutcome
  close : CloseOutcome
  create : CreateOutcome
  deriving Repr, DecidableEq

/-- Observable events of one `get_session` call, in program order. -/
inductive Event where
  | close
  | closeErrorLogged
  | validateCall
  | validateErrorLogged
  | create
  deriving Repr, DecidableEq

/-- One `get_session` call (actualbudget.py lines 76-105).  Returns the event
trace, the post state, and `Except.ok` the returned handle or `Except.error`
the propagated exception message. -/
def get_session (st : CacheState) (now : Nat) (b : Backend) :
    List Event × CacheState × Except String Nat :=
  -- Step 1: invalidate the session if it is too old (lines 80-88).
  let step1 : List Event × Option Nat :=
    match st.actual with
    | some h =>
      if st.sessionStartedAt + SESSION_TIMEOUT < now then
        (Event.close ::
          (match b.close with
           | CloseOutcome.ok => []
           | CloseOutcome.raised => [Event.closeErrorLogged]),
         none)
      else ([], some h)
    | none => ([], none)
  -- Step 2: validate the surviving session (lines 90-98); a negative or
  -- erroring answer is caught, logged, and the handle is set to None.
  let step2 : List Event × Option Nat :=
    match step1.2 with
    | some h =>
      match b.validate with
      | ValidateOutcome.validated => ([Event.validateCall], some h)
      | ValidateOutcome.notValidated =>
          ([Event.validateCall, Event.validateErrorLogged], none)
      | ValidateOutcome.raised =>
          ([Event.validateCall, Event.validateErrorLogged], none)
    | none => ([], none)
  -- Step 3: create a new session if needed (lines 100-103); a raise from
  -- create_session propagates, leaving self.actual = None.
  match step2.2 with
  | some h =>
      (step1.1 ++ step2.1,
       ⟨some h, st.sessionStartedAt⟩,
       Except.ok h)
  | none =>
      match b.create with
      | CreateOutcome.ok h =>
          (step1.1 ++ step2.1 ++ [Event.create],
           ⟨some h, now⟩,
           Except.ok h)
      | CreateOutcome.raised e =>
          (step1.1 ++ step2.1 ++ [Event.create],
           ⟨none, st.sessionStartedAt⟩,
           Except.error e)

/-- Fold a sequence of `get_session` calls, each with its own sampled time and
backend behaviour, through the cache state. -/
def runCalls (st : CacheState) (calls : List (Nat × Backend)) : CacheState :=
  calls.foldl (fun s c => (get_session s c.1 c.2).2.1) st

/-- Number of connection handles the cache currently holds. -/
def handleCount (st : CacheState) : Nat :=
  match st.actual with
  | some _ => 1
  | none => 0

/-- Two acquisitions serialized by the cache's lock: the winner's whole
critical section runs first, then the loser's, both against the same sampled
arrival time.  Returns the combined backend trace and both callers' results. -/
def twoAcquires (st : CacheState) (now : Nat) (bFirst bSecond : Backend) :
    List Event × Except String Nat × Except String Nat :=
  let r1 := get_session st now bFirst
  let r2 := get_session r1.2.1 now bSecond
  (r1.1 ++ r2.1, r1.2.2, r2.2.2)

/-- Helper: when the cache holds no handle, a `get_session` call always
reaches `create_session`, so a `create` event appears in its trace. -/
theorem create_mem_of_actual_none (st : CacheState) (now : Nat) (b : Backend)
    (h : st.actual = none) : Event.create ∈ (get_session st now b).1 := by
  cases b with
  | mk v c cr => cases cr <;> simp [get_session, h]

/-- C1: for every `get_session` call made while a handle exists whose age
exceeds the fixed 30-minute idle timeout (`sessionStartedAt + SESSION_TIMEOUT
< now`), the cache closes the old handle and then creates and stores a new
one, the close occurring before the create in the backend trace. -/
theorem expired_handle_closed_then_recreated
    (st : CacheState) (now : Nat) (b : Backend) (h hNew : Nat)
    (hHandle : st.actual = some h)
    (hExpired : st.sessionStartedAt + SESSION_TIMEOUT < now)
    (hCreate : b.create = CreateOutcome.ok hNew) :
    (get_session st now b).2.2 = Except.ok hNew ∧
    (get_session st now b).2.1 = ⟨some hNew, now⟩ ∧
    (get_session st now b).1.head? = some Event.close ∧
    (get_session st now b).1.getLast? = some Event.create := by
  cases b with
  | mk v c cr =>
    simp only at hCreate
    subst hCreate
    cases c <;> simp [get_session, hHandle, hExpired]

/-- Witness for C1 at a concrete input: a handle created at time 0 is expired
at time 1801 seconds and gets closed and replaced by handle 2. -/
theorem expired_handle_closed_then_recreated_witness :
    (get_session ⟨some 1, 0⟩ 1801 ⟨ValidateOutcome.validated, CloseOutcome.ok,
        CreateOutcome.ok 2⟩).2.2 = Except.ok 2 ∧
    (get_session ⟨some 1, 0⟩ 1801 ⟨ValidateOutcome.validated, CloseOutcome.ok,
        CreateOutcome.ok 2⟩).2.1 = ⟨some 2, 1801⟩ ∧
    (get_session ⟨some 1, 0⟩ 1801 ⟨ValidateOutcome.validated, CloseOutcome.ok,
        CreateOutcome.ok 2⟩).1.head? = some Event.close ∧
    (get_session ⟨some 1, 0⟩ 1801 ⟨ValidateOutcome.validated, CloseOutcome.ok,
        CreateOutcome.ok 2⟩).1.getLast? = some Event.create :=
  expired_handle_closed_then_recreated ⟨some 1, 0⟩ 1801
    ⟨ValidateOutcome.validated, CloseOutcome.ok, CreateOutcome.ok 2⟩ 1 2
    rfl (by decide) rfl

/-- C2 counterexample: an unexpired handle (created at 0, acquired at 10)
whose validation answers negatively is discarded and replaced without error,
but the old handle is never closed: no `close` event occurs, refuting "the
cache closes the old handle". -/
theorem validation_failure_close_counterexample :
    Event.close ∉ (get_session ⟨some 1, 0⟩ 10
      ⟨ValidateOutcome.notValidated, CloseOutcome.ok, CreateOutcome.ok 2⟩).1 ∧
    (get_session ⟨some 1, 0⟩ 10
      ⟨ValidateOutcome.notValidated, CloseOutcome.ok, CreateOutcome.ok 2⟩).2.2 =
      Except.ok 2 :=
  ⟨by decide, rfl⟩

/-- C2 (amended): for every `get_session` call in which an existing unexpired
handle fails validation (negative or erroring answer), the cache discards the
old handle WITHOUT closing it and creates a new one within the same call, and
no error surfaces to the caller if the recreation succeeds. -/
theorem validation_failure_discards_and_recreates
    (st : CacheState) (now : Nat) (b : Backend) (h hNew : Nat)
    (hHandle : st.actual = some h)
    (hFresh : ¬ st.sessionStartedAt + SESSION_TIMEOUT < now)
    (hInvalid : b.validate ≠ ValidateOutcome.validated)
    (hCreate : b.create = CreateOutcome.ok hNew) :
    (get_session st now b).2.2 = Except.ok hNew ∧
    (get_session st now b).2.1.actual = some hNew ∧
    Event.close ∉ (get_session st now b).1 ∧
    Event.create ∈ (get_session st now b).1 := by
  cases b with
  | mk v c cr =>
    simp only at hCreate hInvalid
    subst hCreate
    cases v with
    | validated => exact absurd rfl hInvalid
    | notValidated => simp [get_session, hHandle, hFresh]
    | raised => simp [get_session, hHandle, hFresh]

/-- Witness for C2 (amended) at a concrete input. -/
theorem validation_failure_discards_and_recreates_witness :
    (get_session ⟨some 1, 0⟩ 10
      ⟨ValidateOutcome.raised, CloseOutcome.ok, CreateOutcome.ok 2⟩).2.2 =
      Except.ok 2 ∧
    (get_session ⟨some 1, 0⟩ 10
      ⟨ValidateOutcome.raised, CloseOutcome.ok, CreateOutcome.ok 2⟩).2.1.actual =
      some 2 ∧
    Event.close ∉ (get_session ⟨some 1, 0⟩ 10
      ⟨ValidateOutcome.raised, CloseOutcome.ok, CreateOutcome.ok 2⟩).1 ∧
    Event.create ∈ (get_session ⟨some 1, 0⟩ 10
      ⟨ValidateOutcome.raised, CloseOutcome.ok, CreateOutcome.ok 2⟩).1 :=
  validation_failure_discards_and_recreates ⟨some 1, 0⟩ 10
    ⟨ValidateOutcome.raised, CloseOutcome.ok, CreateOutcome.ok 2⟩ 1 2
    rfl (by decide) (by decide) rfl

/-- C3: for every `get_session` call in which session creation fails (e.g.
with an authentication error), the call raises that error to the caller and
`self.actual` remains `None`, so the next acquisition attempts creation again
rather than reusing a half-initialized handle.  Creation is reached exactly
when no handle exists, the handle is expired, or validation does not succeed. -/
theorem create_failure_propagates_and_leaves_unset
    (st : CacheState) (now : Nat) (b : Backend) (e : String)
    (hCreate : b.create = CreateOutcome.raised e)
    (hAttempt : st.actual = none ∨ st.sessionStartedAt + SESSION_TIMEOUT < now ∨
      b.validate ≠ ValidateOutcome.validated) :
    (get_session st now b).2.2 = Except.error e ∧
    (get_session st now b).2.1.actual = none ∧
    ∀ now2 b2, Event.create ∈ (get_session (get_session st now b).2.1 now2 b2).1 := by
  cases b with
  | mk v c cr =>
    simp only at hCreate hAttempt
    subst hCreate
    have hmain : (get_session st now ⟨v, c, CreateOutcome.raised e⟩).2.2 =
        Except.error e ∧
        (get_session st now ⟨v, c, CreateOutcome.raised e⟩).2.1.actual = none := by
      cases hact : st.actual with
      | none => simp [get_session, hact]
      | some h =>
        by_cases hexp : st.sessionStartedAt + SESSION_TIMEOUT < now
        · cases c <;> simp [get_session, hact, hexp]
        · rcases hAttempt with h1 | h2 | h3
          · exact absurd hact (by simp [h1])
          · exact absurd h2 hexp
          · cases v with
            | validated => exact absurd rfl h3
            | notValidated => simp [get_session, hact, hexp]
            | raised => simp [get_session, hact, hexp]
    exact ⟨hmain.1, hmain.2,
      fun now2 b2 => create_mem_of_actual_none _ now2 b2 hmain.2⟩

/-- Witness for C3 at a concrete input: a cold cache whose creation raises
"auth" propagates the error, stays unset, and retries creation next call. -/
theorem create_failure_propagates_and_leaves_unset_witness :
    (get_session ⟨none, 5⟩ 10
      ⟨ValidateOutcome.validated, CloseOutcome.ok, CreateOutcome.raised "auth"⟩).2.2 =
      Except.error "auth" ∧
    (get_session ⟨none, 5⟩ 10
      ⟨ValidateOutcome.validated, CloseOutcome.ok,
        CreateOutcome.raised "auth"⟩).2.1.actual = none ∧
    ∀ now2 b2, Event.create ∈
      (get_session (get_session ⟨none, 5⟩ 10
        ⟨ValidateOutcome.validated, CloseOutcome.ok,
          CreateOutcome.raised "auth"⟩).2.1 now2 b2).1 :=
  create_failure_propagates_and_leaves_unset ⟨none, 5⟩ 10
    ⟨ValidateOutcome.validated, CloseOutcome.ok, CreateOutcome.raised "auth"⟩
    "auth" rfl (Or.inl rfl)

/-- C4: two `get_session` calls within the idle window while the stored handle
is healthy (validation succeeds) both return the same handle, leave the state
untouched, and never invoke session creation. -/
theorem healthy_reuse_idempotent
    (st : CacheState) (now1 now2 : Nat) (b1 b2 : Backend) (h : Nat)
    (hHandle : st.actual = some h)
    (hFresh1 : ¬ st.sessionStartedAt + SESSION_TIMEOUT < now1)
    (hFresh2 : ¬ st.sessionStartedAt + SESSION_TIMEOUT < now2)
    (hVal1 : b1.validate = ValidateOutcome.validated)
    (hVal2 : b2.validate = ValidateOutcome.validated) :
    (get_session st now1 b1).2.2 = Except.ok h ∧
    (get_session st now1 b1).2.1 = st ∧
    (get_session (get_session st now1 b1).2.1 now2 b2).2.2 = Except.ok h ∧
    Event.create ∉
      (get_session st now1 b1).1 ++ (get_session (get_session st now1 b1).2.1 now2 b2).1 := by
  cases st with
  | mk act t =>
    simp only at hHandle hFresh1 hFresh2
    subst hHandle
    have e1 : get_session ⟨some h, t⟩ now1 b1 =
        ([Event.validateCall], ⟨some h, t⟩, Except.ok h) := by
      simp [get_session, hFresh1, hVal1]
    have e2 : get_session ⟨some h, t⟩ now2 b2 =
        ([Event.validateCall], ⟨some h, t⟩, Except.ok h) := by
      simp [get_session, hFresh2, hVal2]
    simp [e1, e2]

/-- Witness for C4 at a concrete input: two acquisitions at times 10 and 20 of
a handle created at 0 both reuse handle 1 with no create. -/
theorem healthy_reuse_idempotent_witness :
    (get_session ⟨some 1, 0⟩ 10
      ⟨ValidateOutcome.validated, CloseOutcome.ok, CreateOutcome.ok 9⟩).2.2 =
      Except.ok 1 ∧
    (get_session ⟨some 1, 0⟩ 10
      ⟨ValidateOutcome.validated, CloseOutcome.ok, CreateOutcome.ok 9⟩).2.1 =
      ⟨some 1, 0⟩ ∧
    (get_session (get_session ⟨some 1, 0⟩ 10
      ⟨ValidateOutcome.validated, CloseOutcome.ok, CreateOutcome.ok 9⟩).2.1 20
      ⟨ValidateOutcome.validated, CloseOutcome.ok, CreateOutcome.ok 9⟩).2.2 =
      Except.ok 1 ∧
    Event.create ∉
      (get_session ⟨some 1, 0⟩ 10
        ⟨ValidateOutcome.validated, CloseOutcome.ok, CreateOutcome.ok 9⟩).1 ++
      (get_session (get_session ⟨some 1, 0⟩ 10
        ⟨ValidateOutcome.validated, CloseOutcome.ok, CreateOutcome.ok 9⟩).2.1 20
        ⟨ValidateOutcome.validated, CloseOutcome.ok, CreateOutcome.ok 9⟩).1 :=
  healthy_reuse_idempotent ⟨some 1, 0⟩ 10 20
    ⟨ValidateOutcome.validated, CloseOutcome.ok, CreateOutcome.ok 9⟩
    ⟨ValidateOutcome.validated, CloseOutcome.ok, CreateOutcome.ok 9⟩ 1
    rfl (by decide) (by decide) rfl rfl

/-- C5: after any sequence of `get_session` calls, the cache holds exactly
zero or one connection handle, never more: `self.actual` is a single slot. -/
theorem cache_at_most_one_handle (st : CacheState) (calls : List (Nat × Backend)) :
    handleCount (runCalls st calls) ≤ 1 := by
  cases hr : (runCalls st calls).actual <;> simp [handleCount, hr]

/-- C6: an error raised while closing a handle being discarded is logged and
swallowed: the call's post state and result are identical whether `__exit__`
raises or not, and when an expired handle is closed and the close raises, the
error is logged. -/
theorem close_error_logged_and_swallowed
    (st : CacheState) (now : Nat) (v : ValidateOutcome) (cr : CreateOutcome) :
    (get_session st now ⟨v, CloseOutcome.raised, cr⟩).2 =
      (get_session st now ⟨v, CloseOutcome.ok, cr⟩).2 ∧
    (∀ h, st.actual = some h → st.sessionStartedAt + SESSION_TIMEOUT < now →
      Event.closeErrorLogged ∈ (get_session st now ⟨v, CloseOutcome.raised, cr⟩).1) := by
  constructor
  · cases hact : st.actual with
    | none => simp [get_session, hact]
    | some h =>
      by_cases hexp : st.sessionStartedAt + SESSION_TIMEOUT < now
      · cases cr <;> simp [get_session, hact, hexp]
      · simp [get_session, hact, hexp]
  · intro h hact hexp
    cases cr <;> simp [get_session, hact, hexp]

/-- Witness for C6 at a concrete input: closing the expired handle 1 raises;
the caller still gets handle 2 and the close error is logged. -/
theorem close_error_logged_and_swallowed_witness :
    (get_session ⟨some 1, 0⟩ 1801
      ⟨ValidateOutcome.validated, CloseOutcome.raised, CreateOutcome.ok 2⟩).2 =
      (get_session ⟨some 1, 0⟩ 1801
        ⟨ValidateOutcome.validated, CloseOutcome.ok, CreateOutcome.ok 2⟩).2 ∧
    Event.closeErrorLogged ∈ (get_session ⟨some 1, 0⟩ 1801
      ⟨ValidateOutcome.validated, CloseOutcome.raised, CreateOutcome.ok 2⟩).1 :=
  ⟨(close_error_logged_and_swallowed ⟨some 1, 0⟩ 1801
      ValidateOutcome.validated (CreateOutcome.ok 2)).1,
   (close_error_logged_and_swallowed ⟨some 1, 0⟩ 1801
      ValidateOutcome.validated (CreateOutcome.ok 2)).2 1 rfl (by decide)⟩

/-- C7: two concurrent acquisitions arriving while the stored handle is
expired are serialized by the lock, so in either serialization order exactly
one `create` is observed on the backend and both callers receive the handle
the winner created. -/
theorem serialized_repair_single_create
    (st : CacheState) (now h h1 h2 : Nat) (c1 c2 : CloseOutcome)
    (hHandle : st.actual = some h)
    (hExpired : st.sessionStartedAt + SESSION_TIMEOUT < now) :
    ((twoAcquires st now ⟨ValidateOutcome.validated, c1, CreateOutcome.ok h1⟩
        ⟨ValidateOutcome.validated, c2, CreateOutcome.ok h2⟩).1.count Event.create = 1 ∧
     (twoAcquires st now ⟨ValidateOutcome.validated, c1, CreateOutcome.ok h1⟩
        ⟨ValidateOutcome.validated, c2, CreateOutcome.ok h2⟩).2.1 = Except.ok h1 ∧
     (twoAcquires st now ⟨ValidateOutcome.validated, c1, CreateOutcome.ok h1⟩
        ⟨ValidateOutcome.validated, c2, CreateOutcome.ok h2⟩).2.2 = Except.ok h1) ∧
    ((twoAcquires st now ⟨ValidateOutcome.validated, c2, CreateOutcome.ok h2⟩
        ⟨ValidateOutcome.validated, c1, CreateOutcome.ok h1⟩).1.count Event.create = 1 ∧
     (twoAcquires st now ⟨ValidateOutcome.validated, c2, CreateOutcome.ok h2⟩
        ⟨ValidateOutcome.validated, c1, CreateOutcome.ok h1⟩).2.1 = Except.ok h2 ∧
     (twoAcquires st now ⟨ValidateOutcome.validated, c2, CreateOutcome.ok h2⟩
        ⟨ValidateOutcome.validated, c1, CreateOutcome.ok h1⟩).2.2 = Except.ok h2) := by
  have hfresh : ¬ now + SESSION_TIMEOUT < now := by omega
  cases c1 <;> cases c2 <;>
    simp [twoAcquires, get_session, hHandle, hExpired, hfresh, List.count_cons]

/-- Witness for C7 at a concrete input: handle 1 created at time 0, both
acquisitions at time 2000; in both orders one create is observed and both
callers share the winner's handle. -/
theorem serialized_repair_single_create_witness :
    ((twoAcquires ⟨some 1, 0⟩ 2000
        ⟨ValidateOutcome.validated, CloseOutcome.ok, CreateOutcome.ok 7⟩
        ⟨ValidateOutcome.validated, CloseOutcome.ok, CreateOutcome.ok 8⟩).1.count
          Event.create = 1 ∧
     (twoAcquires ⟨some 1, 0⟩ 2000
        ⟨ValidateOutcome.validated, CloseOutcome.ok, CreateOutcome.ok 7⟩
        ⟨ValidateOutcome.validated, CloseOutcome.ok, CreateOutcome.ok 8⟩).2.1 =
          Except.ok 7 ∧
     (twoAcquires ⟨some 1, 0⟩ 2000
        ⟨ValidateOutcome.validated, CloseOutcome.ok, CreateOutcome.ok 7⟩
        ⟨ValidateOutcome.validated, CloseOutcome.ok, CreateOutcome.ok 8⟩).2.2 =
          Except.ok 7) ∧
    ((twoAcquires ⟨some 1, 0⟩ 2000
        ⟨ValidateOutcome.validated, CloseOutcome.ok, CreateOutcome.ok 8⟩
        ⟨ValidateOutcome.validated, CloseOutcome.ok, CreateOutcome.ok 7⟩).1.count
          Event.create = 1 ∧
     (twoAcquires ⟨some 1, 0⟩ 2000
        ⟨ValidateOutcome.validated, CloseOutcome.ok, CreateOutcome.ok 8⟩
        ⟨ValidateOutcome.validated, CloseOutcome.ok, CreateOutcome.ok 7⟩).2.1 =
          Except.ok 8 ∧
     (twoAcquires ⟨some 1, 0⟩ 2000
        ⟨ValidateOutcome.validated, CloseOutcome.ok, CreateOutcome.ok 8⟩
        ⟨ValidateOutcome.validated, CloseOutcome.ok, CreateOutcome.ok 7⟩).2.2 =
          Except.ok 8) :=
  serialized_repair_single_create ⟨some 1, 0⟩ 2000 1 7 8
    CloseOutcome.ok CloseOutcome.ok rfl (by decide)

/-!
Budget translation (`_get_budgets_sync`, `get_budget_sync`, actualbudget.py
lines 159-212).  Rows coming from the wrapped ORM query `get_budgets` are
modelled as records of the fields the code reads; monetary values are
modelled as integers since no claim concerns their arithmetic.  Python
compares the `str(budget_raw.month)` keys lexicographically by code point,
which `charsLe` implements structurally so that concrete runs reduce.
-/

/-- Python string `<=` on `str(month)` keys: lexicographic comparison by code
point. -/
def charsLe : List Char → List Char → Bool
  | [], _ => true
  | _ :: _, [] => false
  | a :: as, b :: bs =>
    if a.toNat < b.toNat then true
    else if b.toNat < a.toNat then false
    else charsLe as bs

/-- Python `<=` on strings. -/
def strLe (a b : String) : Bool := charsLe a.data b.data

theorem charsLe_total : ∀ a b : List Char, charsLe a b = true ∨ charsLe b a = true
  | [], _ => Or.inl rfl
  | _ :: _, [] => Or.inr rfl
  | a :: as, b :: bs => by
    by_cases h1 : a.toNat < b.toNat
    · left; simp [charsLe, h1]
    · by_cases h2 : b.toNat < a.toNat
      · right; simp [charsLe, h1, h2]
      · rcases charsLe_total as bs with h | h
        · left; simp [charsLe, h1, h2, h]
        · right; simp [charsLe, h1, h2, h]

theorem charsLe_trans :
    ∀ a b c : List Char, charsLe a b = true → charsLe b c = true → charsLe a c = true
  | [], _, _, _, _ => rfl
  | _ :: _, [], _, hab, _ => by simp [charsLe] at hab
  | _ :: _, _ :: _, [], _, hbc => by simp [charsLe] at hbc
  | a :: as, b :: bs, c :: cs, hab, hbc => by
    simp only [charsLe] at hab hbc ⊢
    by_cases h1 : a.toNat < b.toNat
    · by_cases h2 : b.toNat < c.toNat
      · have hac : a.toNat < c.toNat := by omega
        simp [hac]
      · by_cases h4 : c.toNat < b.toNat
        · simp [h2, h4] at hbc
        · have hac : a.toNat < c.toNat := by omega
          simp [hac]
    · by_cases h3 : b.toNat < a.toNat
      · simp [h1, h3] at hab
      · have hab2 : charsLe as bs = true := by simpa [h1, h3] using hab
        by_cases h2 : b.toNat < c.toNat
        · have hac : a.toNat < c.toNat := by omega
          simp [hac]
        · by_cases h4 : c.toNat < b.toNat
          · simp [h2, h4] at hbc
          · have hbc2 : charsLe bs cs = true := by simpa [h2, h4] using hbc
            have h5 : ¬ a.toNat < c.toNat := by omega
            have h6 : ¬ c.toNat < a.toNat := by omega
            simp [h5, h6]
            exact charsLe_trans as bs cs hab2 hbc2

/-- `@dataclass class BudgetAmount` (actualbudget.py lines 36-39). -/
structure BudgetAmount where
  month : String
  amount : Option Int
  deriving Repr, DecidableEq

/-- `@dataclass class Budget` (actualbudget.py lines 42-48): fields `id`,
`group`, `category`, `amounts`, `balance`, all without defaults. -/
structure Budget where
  id : String
  group : Option String
  category : String
  amounts : List BudgetAmount
  balance : Int
  deriving Repr, DecidableEq

/-- One row of the ORM query `get_budgets(actual.session)`, restricted to the
fields `_get_budgets_sync` reads.  `hasCategoryId` models
`hasattr(budget_raw.category, "id")`; `amountField` models the truthiness
test `not budget_raw.amount` (0 is falsy); `getAmount` models
`budget_raw.get_amount()`; `month` models `str(budget_raw.month)`. -/
structure RawBudget where
  hasCategoryId : Bool
  catId : String
  groupName : String
  catName : String
  amountField : Int
  getAmount : Int
  month : String
  deriving Repr, DecidableEq

/-- The sort key `lambda x: x.month` of the `sorted` calls at actualbudget.py
lines 181 and 209, as a relation. -/
def monthOrder (a b : BudgetAmount) : Prop := strLe a.month b.month = true

instance : DecidableRel monthOrder := fun a b =>
  inferInstanceAs (Decidable (strLe a.month b.month = true))

instance : IsTotal BudgetAmount monthOrder :=
  ⟨fun a b => charsLe_total a.month.data b.month.data⟩

instance : IsTrans BudgetAmount monthOrder :=
  ⟨fun a b c => charsLe_trans a.month.data b.month.data c.month.data⟩

/-- `sorted(amounts, key=lambda x: x.month)`: a sort of the list that is
sorted with respect to the month key. -/
def sortAmountsByMonth (l : List BudgetAmount) : List BudgetAmount :=
  List.insertionSort monthOrder l

/-- `category in budgets` lookup in the insertion-ordered Python dict,
modelled as an association list. -/
def lookupBudget : List (String × Budget) → String → Option Budget
  | [], _ => none
  | (k2, b) :: rest, k => if k2 = k then some b else lookupBudget rest k

/-- `budgets[category].amounts.append(...)`. -/
def appendAmount : List (String × Budget) → String → BudgetAmount → List (String × Budget)
  | [], _, _ => []
  | (k2, b) :: rest, k, ba =>
    if k2 = k then (k2, ⟨b.id, b.group, b.category, b.amounts ++ [ba], b.balance⟩) :: rest
    else (k2, b) :: appendAmount rest k ba

/-- The first loop of `_get_budgets_sync` (lines 163-179): group raw rows by
category id into the insertion-ordered dict, appending one `BudgetAmount` per
row; rows whose category has no `id` attribute are skipped. -/
def buildBudgets : List RawBudget → List (String × Budget) → List (String × Budget)
  | [], acc => acc
  | row :: rest, acc =>
    if row.hasCategoryId then
      let category := row.catId
      let amount : Option Int := if row.amountField = 0 then none else some row.getAmount
      let acc2 :=
        if (lookupBudget acc category).isSome then acc
        else acc ++ [(category, ⟨category, some row.groupName, row.catName, [], 0⟩)]
      buildBudgets rest (appendAmount acc2 category ⟨row.month, amount⟩)
    else
      buildBudgets rest acc

/-- `ActualBudget._get_budgets_sync` (lines 159-188): build the dict, then for
each category sort its amounts by month and look up the category balance
(`get_category`; a missing category gives `Decimal(0)`), returning the dict's
values. -/
def get_budgets_sync (rows : List RawBudget) (catBalance : String → Option Int) :
    List Budget :=
  let budgets := buildBudgets rows []
  budgets.map (fun kb =>
    ⟨kb.2.id, kb.2.group, kb.2.category, sortAmountsByMonth kb.2.amounts,
     match catBalance kb.1 with
     | some bal => bal
     | none => 0⟩)

/-- Errors a Python call can raise in this layer: an explicit
`raise Exception(...)` or a `TypeError` from a bad constructor call. -/
inductive PyError where
  | exception (msg : String)
  | typeError (msg : String)
  deriving Repr, DecidableEq

/-- The keyword arguments of a `Budget(...)` call: one slot per declared field
of the dataclass plus the `name` keyword that `get_budget_sync` passes. -/
structure BudgetKwargs where
  id : Option String
  group : Option (Option String)
  category : Option String
  amounts : Option (List BudgetAmount)
  balance : Option Int
  name : Option String
  deriving Repr, DecidableEq

/-- The synthesized `Budget.__init__` of the dataclass (lines 42-48): a
keyword that is not a declared field raises `TypeError`, as does a missing
required field (none of `id`, `group`, `category`, `amounts`, `balance` has a
default). -/
def budgetDataclassCall (kw : BudgetKwargs) : Except PyError Budget :=
  if kw.name.isSome then
    Except.error (PyError.typeError "unexpected keyword argument name")
  else
    match kw.id, kw.group, kw.category, kw.amounts, kw.balance with
    | some i, some g, some c, some a, some b => Except.ok ⟨i, g, c, a, b⟩
    | _, _, _, _, _ =>
        Except.error (PyError.typeError "missing required argument")

/-- One row of `get_budgets(actual.session, None, budget_name)`, restricted to
the fields `get_budget_sync` reads. -/
structure RawBudgetRow where
  amountField : Int
  getAmount : Int
  month : String
  deriving Repr, DecidableEq

/-- `ActualBudget.get_budget_sync` (lines 196-212).  When no rows match it
raises "budget ... not found" (ORM rows are truthy, so `not budgets_raw[0]`
reduces to emptiness); otherwise it calls
`Budget(name=budget_name, amounts=[], balance=Decimal(0))` and, were that
call to succeed, would append one amount per row, sort them by month and fill
in the balance (the dead `get_category(actual, budget_name)` lookup is
modelled by `catBalance`). -/
def get_budget_sync (rows : List RawBudgetRow) (catBalance : String → Option Int)
    (budget_name : String) : Except PyError Budget := do
  if rows.isEmpty then
    throw (PyError.exception ("budget " ++ budget_name ++ " not found"))
  let budget ← budgetDataclassCall ⟨none, none, none, some [], some 0, some budget_name⟩
  let withAmounts : Budget :=
    ⟨budget.id, budget.group, budget.category,
     budget.amounts ++ rows.map (fun row =>
       ⟨row.month, if row.amountField = 0 then none else some row.getAmount⟩),
     budget.balance⟩
  let bal : Int :=
    match catBalance budget_name with
    | some b2 => b2
    | none => 0
  return ⟨withAmounts.id, withAmounts.group, withAmounts.category,
          sortAmountsByMonth withAmounts.amounts, bal⟩

/-- Helper: `get_budget_sync` always raises: "not found" on an empty row list
and a `TypeError` from the unexpected keyword `name` otherwise. -/
theorem get_budget_sync_eq (rows : List RawBudgetRow) (cb : String → Option Int)
    (name : String) :
    get_budget_sync rows cb name =
      if rows.isEmpty then
        Except.error (PyError.exception ("budget " ++ name ++ " not found"))
      else
        Except.error (PyError.typeError "unexpected keyword argument name") := by
  cases rows <;>
    simp [get_budget_sync, budgetDataclassCall, Bind.bind, Except.bind,
      Pure.pure, Except.pure]

/-- C8: every `Budget` record returned by the budget-fetch operations has its
amounts list sorted by month (the string sort key) in ascending order: this
holds for every element of `get_budgets_sync`, and vacuously for
`get_budget_sync`, which never returns a `Budget`. -/
theorem budget_amounts_sorted_by_month
    (rows : List RawBudget) (cb : String → Option Int) (bud : Budget)
    (hmem : bud ∈ get_budgets_sync rows cb) :
    List.Sorted monthOrder bud.amounts ∧
    ∀ (rows2 : List RawBudgetRow) (cb2 : String → Option Int) (name : String)
      (bud2 : Budget), get_budget_sync rows2 cb2 name = Except.ok bud2 →
        List.Sorted monthOrder bud2.amounts := by
  constructor
  · rcases List.mem_map.mp hmem with ⟨kb, _, hf⟩
    subst hf
    simpa [sortAmountsByMonth] using
      List.sorted_insertionSort monthOrder kb.2.amounts
  · intro rows2 cb2 name bud2 h
    rw [get_budget_sync_eq] at h
    split at h <;> exact absurd h (by simp)

/-- Witness for C8 at a concrete input: two rows of category c1 arriving with
months out of order come back sorted ascending. -/
theorem budget_amounts_sorted_by_month_witness :
    List.Sorted monthOrder
      ((⟨"c1", some "g", "Groceries",
          [⟨"2024-01", none⟩, ⟨"2024-02", some 100⟩], 5⟩ : Budget)).amounts ∧
    ∀ (rows2 : List RawBudgetRow) (cb2 : String → Option Int) (name : String)
      (bud2 : Budget), get_budget_sync rows2 cb2 name = Except.ok bud2 →
        List.Sorted monthOrder bud2.amounts :=
  budget_amounts_sorted_by_month
    [⟨true, "c1", "g", "Groceries", 1, 100, "2024-02"⟩,
     ⟨true, "c1", "g", "Groceries", 0, 0, "2024-01"⟩]
    (fun c => if c = "c1" then some 5 else none)
    ⟨"c1", some "g", "Groceries", [⟨"2024-01", none⟩, ⟨"2024-02", some 100⟩], 5⟩
    (by decide)

/-- C9: `get_budget_sync` raises for every input and never returns a
`Budget`: a not-found error when no rows match, and otherwise a `TypeError`
because `Budget(name=...)` passes a keyword that is not a field of the
`Budget` dataclass. -/
theorem get_budget_sync_always_raises (rows : List RawBudgetRow)
    (cb : String → Option Int) (name : String) :
    (get_budget_sync rows cb name).isOk = false ∧
    get_budget_sync rows cb name =
      if rows.isEmpty then
        Except.error (PyError.exception ("budget " ++ name ++ " not found"))
      else
        Except.error (PyError.typeError "unexpected keyword argument name") := by
  refine ⟨?_, get_budget_sync_eq rows cb name⟩
  rw [get_budget_sync_eq]
  split <;> rfl

/-!
`handle_create_splits` (services.py lines 98-143).  The handler fetches the
parent transaction, creates one split per requested entry via `create_split`,
sets its amount and category, marks the parent as a split parent, commits,
and builds the response by mapping over the `created_splits` accumulator —
which is initialized to `[]` and never appended to.
-/

/-- One entry of the validated `splits` service data: an optional category
name and a required amount. -/
structure SplitReq where
  category : Option String
  amount : Int
  deriving Repr, DecidableEq

/-- A split transaction as `create_split` plus the handler's mutations leave
it: an identifier, the amount, and the resolved category id. -/
structure SplitTxn where
  id : Nat
  amount : Int
  categoryId : Option String
  deriving Repr, DecidableEq

/-- The parent transaction fields the handler mutates. -/
structure ParentTxn where
  id : Nat
  categoryId : Option String
  isParent : Nat
  deriving Repr, DecidableEq

/-- An entry of the returned response under the "transaction" key. -/
structure RespItem where
  id : Nat
  amount : Int
  category : Option String
  deriving Repr, DecidableEq

/-- The category id assigned to one created split (lines 118-124): a truthy
requested category is looked up with `get_category` and used when found
(`create_split` leaves the category unset otherwise); an absent or falsy
request inherits the parent category. -/
def splitCategoryId (parentCat : Option String) (getCategoryId : String → Option String)
    (sd : SplitReq) : Option String :=
  match sd.category with
  | some cname =>
    if cname = "" then parentCat
    else
      match getCategoryId cname with
      | some cid => some cid
      | none => none
  | none => parentCat

/-- The `execute` body of `handle_create_splits` (lines 105-141): returns the
split transactions `create_split` produced (ids drawn from their creation
order), the mutated parent, and the "transaction" response list built from
the `created_splits` accumulator, which starts empty and is never appended
to.  `categoryNameOf` models the `split.category.name` lookup used while
building the response. -/
def handle_create_splits (parent : ParentTxn) (splitsData : List SplitReq)
    (getCategoryId : String → Option String) (categoryNameOf : String → Option String) :
    List SplitTxn × ParentTxn × List RespItem :=
  let created_splits : List SplitTxn := []
  let newSplits : List SplitTxn :=
    ((List.range splitsData.length).zip splitsData).map (fun p =>
      ⟨p.1, p.2.amount, splitCategoryId parent.categoryId getCategoryId p.2⟩)
  let parent2 : ParentTxn := ⟨parent.id, none, 1⟩
  let response : List RespItem :=
    created_splits.map (fun s =>
      ⟨s.id, s.amount,
       match s.categoryId with
       | some cid => categoryNameOf cid
       | none => none⟩)
  (newSplits, parent2, response)

/-- C10: every successful `create_splits` invocation returns an empty
"transaction" list, no matter how many splits were requested and created,
because the `created_splits` accumulator is never appended to; one split
transaction per requested entry is nevertheless created and the parent is
marked as a split parent. -/
theorem create_splits_response_empty (parent : ParentTxn) (splitsData : List SplitReq)
    (getCategoryId categoryNameOf : String → Option String) :
    (handle_create_splits parent splitsData getCategoryId categoryNameOf).2.2 = [] ∧
    (handle_create_splits parent splitsData getCategoryId categoryNameOf).1.length =
      splitsData.length ∧
    (handle_create_splits parent splitsData getCategoryId categoryNameOf).2.1.isParent
      = 1 := by
  simp [handle_create_splits]
